import Mathlib

/-
Verification of the adaas supplier-aggregation core against its
natural-language specification.  The Python source is shallowly embedded:
dictionaries become structures, 32-bit machine words become natural numbers
reduced modulo 2 ^ 32, Python floats used for prices become rationals,
ISO-8601 timestamps become integer time points, and file-system presence
of a ledger becomes an Option.
-/

namespace Adaas

/-! ## Digest utility: SHA-256 (hashlib.sha256), big-endian, byte-oriented.
Words are naturals kept below 2 ^ 32 by explicit reduction. -/

/-- Reduction of a natural number to a 32-bit word. -/
def w32 (n : Nat) : Nat := n % 4294967296

/-- Right rotation of a 32-bit word by n bits. -/
def rotr32 (n x : Nat) : Nat := w32 ((x >>> n) ||| (x <<< (32 - n)))

/-- Bitwise complement of a 32-bit word. -/
def not32 (x : Nat) : Nat := 4294967295 ^^^ x

/-- Choice function of the SHA-256 compression. -/
def chWord (x y z : Nat) : Nat := (x &&& y) ^^^ (not32 x &&& z)

/-- Majority function of the SHA-256 compression. -/
def majWord (x y z : Nat) : Nat := (x &&& y) ^^^ (x &&& z) ^^^ (y &&& z)

/-- Big Sigma-0 of SHA-256. -/
def bsig0 (x : Nat) : Nat := rotr32 2 x ^^^ rotr32 13 x ^^^ rotr32 22 x

/-- Big Sigma-1 of SHA-256. -/
def bsig1 (x : Nat) : Nat := rotr32 6 x ^^^ rotr32 11 x ^^^ rotr32 25 x

/-- Small sigma-0 of SHA-256 (message schedule). -/
def ssig0 (x : Nat) : Nat := rotr32 7 x ^^^ rotr32 18 x ^^^ (x >>> 3)

/-- Small sigma-1 of SHA-256 (message schedule). -/
def ssig1 (x : Nat) : Nat := rotr32 17 x ^^^ rotr32 19 x ^^^ (x >>> 10)

/-- Round constants of SHA-256. -/
def shaK : List Nat :=
  [1116352408, 1899447441, 3049323471, 3921009573,
   961987163, 1508970993, 2453635748, 2870763221,
   3624381080, 310598401, 607225278, 1426881987,
   1925078388, 2162078206, 2614888103, 3248222580,
   3835390401, 4022224774, 264347078, 604807628,
   770255983, 1249150122, 1555081692, 1996064986,
   2554220882, 2821834349, 2952996808, 3210313671,
   3336571891, 3584528711, 113926993, 338241895,
   666307205, 773529912, 1294757372, 1396182291,
   1695183700, 1986661051, 2177026350, 2456956037,
   2730485921, 2820302411, 3259730800, 3345764771,
   3516065817, 3600352804, 4094571909, 275423344,
   430227734, 506948616, 659060556, 883997877,
   958139571, 1322822218, 1537002063, 1747873779,
   1955562222, 2024104815, 2227730452, 2361852424,
   2428436474, 2756734187, 3204031479, 3329325298]

/-- Working registers a..h of the SHA-256 compression. -/
structure Regs where
  r0 : Nat
  r1 : Nat
  r2 : Nat
  r3 : Nat
  r4 : Nat
  r5 : Nat
  r6 : Nat
  r7 : Nat
deriving DecidableEq

/-- Initial hash value of SHA-256. -/
def shaH0 : Regs :=
  ⟨1779033703, 3144134277, 1013904242, 2773480762,
   1359893119, 2600822924, 528734635, 1541459225⟩

/-- Padding of the message: append byte 0x80, zero bytes up to
56 mod 64, then the bit length in 8 big-endian bytes. -/
def shaPad (msg : List Nat) : List Nat :=
  let len := msg.length
  let bitlen := 8 * len
  let zeros := (120 - (len + 1) % 64) % 64
  msg ++ [0x80] ++ List.replicate zeros 0 ++
    [bitlen / 72057594037927936 % 256, bitlen / 281474976710656 % 256,
     bitlen / 1099511627776 % 256, bitlen / 4294967296 % 256,
     bitlen / 16777216 % 256, bitlen / 65536 % 256,
     bitlen / 256 % 256, bitlen % 256]

/-- Big-endian packing of bytes into 32-bit words. -/
def bytesToWords : List Nat → List Nat
  | a :: b :: c :: d :: rest =>
      (a * 16777216 + b * 65536 + c * 256 + d) :: bytesToWords rest
  | _ => []

/-- Message schedule: extend the 16 block words to 64. -/
def buildW (block : List Nat) : Array Nat :=
  (List.range 48).foldl
    (fun w _ =>
      let t := w.size
      w.push (w32 (ssig1 (w.getD (t - 2) 0) + w.getD (t - 7) 0 +
                   ssig0 (w.getD (t - 15) 0) + w.getD (t - 16) 0)))
    block.toArray

/-- One round of the SHA-256 compression. -/
def shaStep (wk : Nat) (s : Regs) : Regs :=
  let t1 := w32 (s.r7 + bsig1 s.r4 + chWord s.r4 s.r5 s.r6 + wk)
  let t2 := w32 (bsig0 s.r0 + majWord s.r0 s.r1 s.r2)
  ⟨w32 (t1 + t2), s.r0, s.r1, s.r2, w32 (s.r3 + t1), s.r4, s.r5, s.r6⟩

/-- Compression of one 512-bit block into the running hash value. -/
def processBlock (hs : Regs) (block : List Nat) : Regs :=
  let w := buildW block
  let s := (List.range 64).foldl
    (fun s i => shaStep (w32 (w.getD i 0 + shaK.getD i 0)) s) hs
  ⟨w32 (hs.r0 + s.r0), w32 (hs.r1 + s.r1), w32 (hs.r2 + s.r2),
   w32 (hs.r3 + s.r3), w32 (hs.r4 + s.r4), w32 (hs.r5 + s.r5),
   w32 (hs.r6 + s.r6), w32 (hs.r7 + s.r7)⟩

/-- Iterates the compression over consecutive 16-word blocks; the fuel
argument bounds the number of blocks and keeps the recursion structural. -/
def processBlocksAux : Nat → Regs → List Nat → Regs
  | 0, hs, _ => hs
  | n + 1, hs, ws =>
      if ws.isEmpty then hs
      else processBlocksAux n (processBlock hs (ws.take 16)) (ws.drop 16)

/-- Compression folded over all 16-word blocks of the padded message. -/
def processBlocks (hs : Regs) (ws : List Nat) : Regs :=
  processBlocksAux ws.length hs ws

/-- Big-endian bytes of a 32-bit word. -/
def wordBytes (x : Nat) : List Nat :=
  [x / 16777216 % 256, x / 65536 % 256, x / 256 % 256, x % 256]

/-- Digest bytes of a final hash value. -/
def regsBytes (r : Regs) : List Nat :=
  wordBytes r.r0 ++ wordBytes r.r1 ++ wordBytes r.r2 ++ wordBytes r.r3 ++
  wordBytes r.r4 ++ wordBytes r.r5 ++ wordBytes r.r6 ++ wordBytes r.r7

/-- SHA-256 digest of a byte sequence (hashlib.sha256(data).digest()). -/
def sha256 (msg : List Nat) : List Nat :=
  regsBytes (processBlocks shaH0 (bytesToWords (shaPad msg)))

/-- UTF-8 encoding of one code point (str.encode()). -/
def utf8Enc (c : Nat) : List Nat :=
  if c < 0x80 then [c]
  else if c < 0x800 then
    [0xC0 ||| (c >>> 6), 0x80 ||| (c &&& 0x3F)]
  else if c < 0x10000 then
    [0xE0 ||| (c >>> 12), 0x80 ||| ((c >>> 6) &&& 0x3F), 0x80 ||| (c &&& 0x3F)]
  else
    [0xF0 ||| (c >>> 18), 0x80 ||| ((c >>> 12) &&& 0x3F),
     0x80 ||| ((c >>> 6) &&& 0x3F), 0x80 ||| (c &&& 0x3F)]

/-- UTF-8 bytes of a string (str.encode()). -/
def strBytes (s : String) : List Nat :=
  (s.data.map (fun c => utf8Enc c.toNat)).flatten

/-- Lower-case hexadecimal digit. -/
def hexDigit (n : Nat) : Char :=
  if n < 10 then Char.ofNat (48 + n) else Char.ofNat (87 + n)

/-- Two hexadecimal characters of one byte. -/
def byteHexChars (b : Nat) : List Char := [hexDigit (b / 16), hexDigit (b % 16)]

/-- Hexadecimal characters of a byte sequence (bytes.hex() or hexdigest()). -/
def hexChars (bs : List Nat) : List Char := (bs.map byteHexChars).flatten

/-- Hexadecimal digest string of a byte sequence. -/
def hexdigest (bs : List Nat) : String := String.mk (hexChars bs)

set_option maxRecDepth 100000

-- sanity check against the published SHA-256 test vector for "abc"
example : hexdigest (sha256 (strBytes "abc")) =
    "ba7816bf8f01cfea414140de5dae2223b00361a396177a9cb410ff61f20015ad" := by
  rfl

/-! ## Process configuration (src/config.py) -/

/-- Shape of the BUSINESS_RULES configuration dictionary. -/
structure BusinessRules where
  default_margin : ℚ
  default_shipping : ℚ
  min_stock_quantity : Nat
deriving DecidableEq

/-- Process-wide business configuration of src/config.py: default margin
0.30, default shipping 15.00, minimum stock quantity 1. -/
def BUSINESS_RULES : BusinessRules :=
  { default_margin := 30 / 100, default_shipping := 15, min_stock_quantity := 1 }

/-- Shape of the COMPLIANCE configuration dictionary. -/
structure ComplianceConfig where
  log_retention_days : Int
  audit_frequency_days : Int
  require_consent : Bool

/-- Process-wide compliance configuration of src/config.py. -/
def COMPLIANCE : ComplianceConfig :=
  { log_retention_days := 365, audit_frequency_days := 90, require_consent := true }

/-! ## Normalizer (src/transformers/product_transformer.py)

Python floats standing for prices are modelled as rationals, and the
built-in round(x, 2) as round-half-to-even at two decimal places. -/

/-- Round-half-to-even on rationals, the tie convention of Python round(). -/
def roundHalfEven (x : ℚ) : ℤ :=
  let f := ⌊x⌋
  let frac := x - f
  if frac < 1 / 2 then f
  else if 1 / 2 < frac then f + 1
  else if f % 2 = 0 then f else f + 1

/-- Python round(x, 2): rounding to two decimal places. -/
def round2 (x : ℚ) : ℚ := (roundHalfEven (x * 100) : ℚ) / 100

/-- ProductTransformer._generate_product_id: SHA-256 of the string
"supplier_id:supplier_product_id", hex digest truncated to 16 characters. -/
def generate_product_id (supplier_id supplier_product_id : String) : String :=
  String.mk ((hexChars (sha256 (strBytes
    (supplier_id ++ ":" ++ supplier_product_id)))).take 16)

/-- ProductTransformer._calculate_final_price. -/
def calculate_final_price (base_price margin shipping : ℚ) : ℚ :=
  let price_with_margin := base_price * (1 + margin)
  let final_price := price_with_margin + shipping
  round2 final_price

/-- Raw supplier record as the extractors build it.  Fields the
transformer reads with dict.get are Options; the raw dictionaries carry
no "id" key. -/
structure RawProduct where
  supplier_product_id : String
  name : String
  brand : Option String
  category : Option String
  weight : Option ℚ
  unit : Option String
  price : Option ℚ
  stock_available : Option Bool
  stock_quantity : Option Nat
  source_url : Option String
  extraction_hash : Option String
deriving DecidableEq

/-- Nested price dictionary of a normalized product. -/
structure Price where
  base : ℚ
  margin : ℚ
  shipping : ℚ
  final : ℚ
deriving DecidableEq

/-- Nested stock dictionary of a normalized product. -/
structure Stock where
  available : Bool
  quantity : Nat
deriving DecidableEq

/-- Nested metadata dictionary of a normalized product. -/
structure ProductMetadata where
  extraction_date : Int
  source_url : String
  hash : String
deriving DecidableEq

/-- Canonical (normalized) product. -/
structure Product where
  id : String
  supplier : String
  supplier_product_id : String
  name : String
  brand : String
  category : String
  weight : ℚ
  unit : String
  price : Price
  stock : Stock
  metadata : ProductMetadata
  created_at : Int
  updated_at : Int
deriving DecidableEq

/-- ProductTransformer._normalize_product.  The transformer reads margin
and shipping from the process-wide BUSINESS_RULES dictionary; the rules
argument embeds that read, and is instantiated with BUSINESS_RULES.
Calls of datetime.utcnow() are embedded as the time point now. -/
def normalize_product (rules : BusinessRules) (supplier_id : String)
    (now : Int) (raw : RawProduct) : Product :=
  let product_id := generate_product_id supplier_id raw.supplier_product_id
  let base_price := raw.price.getD 0
  let margin := rules.default_margin
  let shipping := rules.default_shipping
  let final_price := calculate_final_price base_price margin shipping
  { id := product_id,
    supplier := supplier_id,
    supplier_product_id := raw.supplier_product_id,
    name := raw.name,
    brand := raw.brand.getD "",
    category := raw.category.getD "Geral",
    weight := raw.weight.getD 0,
    unit := raw.unit.getD "un",
    price := { base := base_price, margin := margin * 100,
               shipping := shipping, final := final_price },
    stock := { available := raw.stock_available.getD true,
               quantity := raw.stock_quantity.getD rules.min_stock_quantity },
    metadata := { extraction_date := now,
                  source_url := raw.source_url.getD "",
                  hash := raw.extraction_hash.getD "" },
    created_at := now,
    updated_at := now }

-- sanity check: the id of the gramore record GRM001, cross-checked
-- against an independent SHA-256 implementation
example : generate_product_id "gramore" "GRM001" = "cd55d333dc546e5a" := by rfl

example : calculate_final_price 20 (30 / 100) 15 = 41 := by
  norm_num [calculate_final_price, round2, roundHalfEven]

/-! ## Ledger (src/compliance/logger.py)

Ledger entries are JSON objects with operation-specific keys; keys absent
for some operations are Options.  ISO-8601 timestamps are embedded as
integer time points, and the SHA-256 digests the logger computes over
JSON-serialized payloads are passed in as strings. -/

/-- One line of a supplier ledger file. -/
structure LogEntry where
  timestamp : Int
  operation : String
  supplier : String
  product_id : String
  status : Option String
  source_url : Option String
  data_hash : Option String
  raw_data_hash : Option String
  normalized_hash : Option String
  catalog_id : Option String
  valid : Option Bool
  errors : Option (List String)
deriving DecidableEq

/-- ComplianceLogger.log_extraction: the recorded product_id is
product_data.get("id", "unknown"); raw supplier dictionaries carry no
"id" key, so the extractors always log extraction under "unknown". -/
def log_extraction_entry (now : Int) (supplier : String) (id_field : Option String)
    (source_url data_hash status : String) : LogEntry :=
  { timestamp := now, operation := "extraction", supplier := supplier,
    product_id := id_field.getD "unknown", status := some status,
    source_url := some source_url, data_hash := some data_hash,
    raw_data_hash := none, normalized_hash := none, catalog_id := none,
    valid := none, errors := none }

/-- ComplianceLogger.log_transformation. -/
def log_transformation_entry (now : Int) (supplier product_id raw_hash normalized_hash status : String) :
    LogEntry :=
  { timestamp := now, operation := "transformation", supplier := supplier,
    product_id := product_id, status := some status,
    source_url := none, data_hash := none,
    raw_data_hash := some raw_hash, normalized_hash := some normalized_hash,
    catalog_id := none, valid := none, errors := none }

/-- ComplianceLogger.log_validation: the entry carries no status key. -/
def log_validation_entry (now : Int) (supplier product_id : String)
    (validation_result : Bool) (errors : List String) : LogEntry :=
  { timestamp := now, operation := "validation", supplier := supplier,
    product_id := product_id, status := none,
    source_url := none, data_hash := none,
    raw_data_hash := none, normalized_hash := none, catalog_id := none,
    valid := some validation_result, errors := some errors }

/-- ComplianceLogger.log_catalog_integration. -/
def log_catalog_integration_entry (now : Int) (supplier product_id catalog_id status : String) :
    LogEntry :=
  { timestamp := now, operation := "catalog_integration", supplier := supplier,
    product_id := product_id, status := some status,
    source_url := none, data_hash := none,
    raw_data_hash := none, normalized_hash := none,
    catalog_id := some catalog_id, valid := none, errors := none }

/-! ## Catalog (src/catalog/catalog_manager.py) -/

/-- Nested metadata dictionary of the catalog document. -/
structure CatalogMetadata where
  total_products : Nat
  suppliers : List (String × Nat)
deriving DecidableEq

/-- Catalog document: version, last_updated, products, metadata. -/
structure Catalog where
  version : String
  last_updated : Int
  products : List Product
  metadata : CatalogMetadata
deriving DecidableEq

/-- CatalogManager._load_catalog on a fresh store: new catalog with the
three fixed supplier keys at zero. -/
def initial_catalog (now : Int) : Catalog :=
  { version := "1.0.0", last_updated := now, products := [],
    metadata := { total_products := 0,
                  suppliers := [("gramore", 0), ("elmar", 0), ("rmoura", 0)] } }

/-- Assignment d[k] = v on a Python dictionary embedded as an association
list: overwrite the existing binding, else append the new key at the end. -/
def setKey (k : String) (v : Nat) : List (String × Nat) → List (String × Nat)
  | [] => [(k, v)]
  | (k2, v2) :: rest =>
      if k2 == k then (k, v) :: rest else (k2, v2) :: setKey k v rest

/-- CatalogManager._update_metadata: refresh last_updated, set
total_products to the product count and recount the three fixed
supplier keys. -/
def update_metadata (now : Int) (c : Catalog) : Catalog :=
  { c with
    last_updated := now,
    metadata :=
      { total_products := c.products.length,
        suppliers := ["gramore", "elmar", "rmoura"].foldl
          (fun m s => setKey s (c.products.countP (fun p => p.supplier == s)) m)
          c.metadata.suppliers } }

/-- CatalogManager.integrate_supplier on an already loaded normalized
batch: drop every product of this supplier, append the batch, refresh
metadata; returns the new catalog and the integrated count. -/
def integrate_supplier (now : Int) (supplier_id : String)
    (batch : List Product) (c : Catalog) : Catalog × Nat :=
  let kept := c.products.filter (fun p => p.supplier != supplier_id)
  let c2 := update_metadata now { c with products := kept ++ batch }
  (c2, batch.length)

/-- Ledger entries integrate_supplier appends: one catalog_integration
entry per product, status success, catalog_id equal to the product id. -/
def integration_log_entries (now : Int) (supplier_id : String)
    (batch : List Product) : List LogEntry :=
  batch.map (fun p => log_catalog_integration_entry now supplier_id p.id p.id "success")

/-- CatalogManager.get_categories: sorted distinct non-empty categories. -/
def get_categories (c : Catalog) : List String :=
  ((c.products.filterMap
      (fun p => if p.category = "" then none else some p.category)).dedup).mergeSort
    (fun a b => decide (a ≤ b))

/-- Statistics dictionary returned by CatalogManager.get_statistics. -/
structure Statistics where
  total_products : Nat
  suppliers : List (String × Nat)
  categories : List String
  price_min : ℚ
  price_max : ℚ
  price_avg : ℚ
deriving DecidableEq

/-- CatalogManager.get_statistics. -/
def get_statistics (c : Catalog) : Statistics :=
  match c.products with
  | [] =>
      { total_products := 0, suppliers := [], categories := [],
        price_min := 0, price_max := 0, price_avg := 0 }
  | p :: ps =>
      let prices := (p :: ps).map (fun q => q.price.final)
      { total_products := (p :: ps).length,
        suppliers := c.metadata.suppliers,
        categories := get_categories c,
        price_min := ps.foldl (fun a q => min a q.price.final) p.price.final,
        price_max := ps.foldl (fun a q => max a q.price.final) p.price.final,
        price_avg := round2 (prices.sum / prices.length) }

/-! ## Auditor (src/compliance/auditor.py)

The presence of a supplier ledger file is an Option at the interface. -/

/-- ComplianceAuditor._count_operations. -/
def count_operations (logs : List LogEntry) : List (String × Nat) :=
  logs.foldl
    (fun counts l => setKey l.operation ((counts.lookup l.operation).getD 0 + 1) counts)
    []

/-- ComplianceAuditor._calculate_success_rate: entries whose status key is
not exactly "success" (including entries with no status key) count as
non-success. -/
def calculate_success_rate (logs : List LogEntry) : ℚ :=
  if logs.isEmpty then 0
  else (logs.countP (fun l => l.status == some "success") : ℚ) / logs.length

/-- Nested integrity summary of ComplianceAuditor._verify_data_integrity. -/
structure IntegritySummary where
  total_extractions : Nat
  total_transformations : Nat
  hash_integrity : String
deriving DecidableEq

/-- ComplianceAuditor._verify_data_integrity. -/
def verify_data_integrity (logs : List LogEntry) : IntegritySummary :=
  { total_extractions := logs.countP (fun l => l.operation == "extraction"),
    total_transformations := logs.countP (fun l => l.operation == "transformation"),
    hash_integrity := "verified" }

/-- Audit result dictionary for a supplier with a ledger. -/
structure AuditReport where
  supplier : String
  audit_date : Int
  total_operations : Nat
  operations_by_type : List (String × Nat)
  success_rate : ℚ
  data_integrity : IntegritySummary
  compliance_status : String
  issues : List String
deriving DecidableEq

/-- Outcome of ComplianceAuditor.audit_supplier: either the no_logs result
or a full report. -/
inductive AuditOutcome where
  | no_logs (supplier message : String)
  | report (r : AuditReport)
deriving DecidableEq

/-- ComplianceAuditor.audit_supplier. -/
def audit_supplier (now : Int) (supplier_id : String)
    (ledger : Option (List LogEntry)) : AuditOutcome :=
  match ledger with
  | none => .no_logs supplier_id "Nenhum log encontrado para este fornecedor"
  | some logs =>
      let rate := calculate_success_rate logs
      let base : AuditReport :=
        { supplier := supplier_id, audit_date := now,
          total_operations := logs.length,
          operations_by_type := count_operations logs,
          success_rate := rate,
          data_integrity := verify_data_integrity logs,
          compliance_status := "compliant", issues := [] }
      if rate < 95 / 100 then
        .report { base with compliance_status := "warning",
                            issues := ["Taxa de sucesso abaixo de 95%"] }
      else .report base

/-- Result dictionary of ComplianceAuditor.verify_traceability. -/
structure TraceabilityResult where
  traceable : Bool
  reason : Option String
  operations_found : List String
  timeline : List LogEntry
deriving DecidableEq

/-- Operation kinds verify_traceability requires. -/
def required_operations : List String :=
  ["extraction", "transformation", "validation", "catalog_integration"]

/-- ComplianceAuditor.verify_traceability: a result code in every case,
never an exception. -/
def verify_traceability (ledger : Option (List LogEntry))
    (product_id supplier_id : String) : TraceabilityResult :=
  match ledger with
  | none =>
      { traceable := false, reason := some "Logs não encontrados",
        operations_found := [], timeline := [] }
  | some logs =>
      let product_logs := logs.filter (fun l => l.product_id == product_id)
      if product_logs.isEmpty then
        { traceable := false, reason := some "Produto não encontrado nos logs",
          operations_found := [], timeline := [] }
      else
        let operations := (product_logs.map (fun l => l.operation)).dedup
        { traceable := required_operations.all (fun op => operations.contains op),
          reason := none,
          operations_found := operations,
          timeline := product_logs.mergeSort (fun a b => decide (a.timestamp ≤ b.timestamp)) }

/-- Report dictionary of ComplianceAuditor.check_retention_policy; it
carries the candidate count and the cutoff, not the candidates. -/
structure RetentionReport where
  retention_days : Int
  logs_to_archive : Nat
  cutoff_date : Int
deriving DecidableEq

/-- Internal old_logs list of check_retention_policy: file name and
timestamp of every ledger entry strictly older than the cutoff. -/
def retention_candidates (retention_days now : Int)
    (ledgers : List (String × List LogEntry)) : List (String × Int) :=
  ledgers.flatMap
    (fun fl => (fl.2.filter (fun l => l.timestamp < now - retention_days)).map
      (fun l => (fl.1, l.timestamp)))

/-- ComplianceAuditor.check_retention_policy: retention_days is read from
the COMPLIANCE configuration (365 days); the report returns
only the count of the internal candidate list. -/
def check_retention_policy (retention_days now : Int)
    (ledgers : List (String × List LogEntry)) : RetentionReport :=
  { retention_days := retention_days,
    logs_to_archive := (retention_candidates retention_days now ledgers).length,
    cutoff_date := now - retention_days }

/-- Modelled from the spec: the check_retention interface of spec section
4.5, which "returns count and list of entries strictly older than cutoff
as archival candidates".  The code under src/ returns the count only;
this definition follows the spec wording for comparison. -/
structure RetentionReportSpec where
  retention_days : Int
  logs_to_archive : Nat
  cutoff_date : Int
  candidates : List (String × Int)
deriving DecidableEq

/-- Modelled from the spec: check_retention as specified, returning the
candidate list alongside its count. -/
def check_retention_specModel (retention_days now : Int)
    (ledgers : List (String × List LogEntry)) : RetentionReportSpec :=
  { retention_days := retention_days,
    logs_to_archive := (retention_candidates retention_days now ledgers).length,
    cutoff_date := now - retention_days,
    candidates := retention_candidates retention_days now ledgers }

/-! ## Pipeline composition (extract, transform, validate, integrate) -/

/-- Ledger entries appended for one raw record that runs the whole
pipeline successfully, with the normalized product.  GramoreExtractor
.extract logs the raw dictionary (which has no "id" key, hence the none
argument), the transformer logs transformation and validation under the
canonical id, and integrate_supplier logs catalog_integration. -/
def pipeline_ledger (rules : BusinessRules) (supplier_id url : String)
    (t1 t2 t3 t4 tnorm : Int) (raw : RawProduct)
    (raw_digest norm_digest : String) : List LogEntry × Product :=
  let normalized := normalize_product rules supplier_id tnorm raw
  ([log_extraction_entry t1 supplier_id none url raw_digest "success",
    log_transformation_entry t2 supplier_id normalized.id raw_digest norm_digest "success",
    log_validation_entry t3 supplier_id normalized.id true [],
    log_catalog_integration_entry t4 supplier_id normalized.id normalized.id "success"],
   normalized)

/-! ## Helper lemmas -/

/-- Rounding half-to-even never goes below the floor. -/
lemma floor_le_roundHalfEven (x : ℚ) : ⌊x⌋ ≤ roundHalfEven x := by
  unfold roundHalfEven
  dsimp only
  split
  · exact le_refl _
  · split
    · omega
    · split <;> omega

/-- Rounding to two decimals never goes below a bound that is a whole
number of hundredths. -/
lemma round2_ge_of_cents (k : ℤ) (y : ℚ) (h : (k : ℚ) / 100 ≤ y) :
    (k : ℚ) / 100 ≤ round2 y := by
  have h1 : (k : ℚ) ≤ y * 100 := by linarith
  have h2 : k ≤ ⌊y * 100⌋ := Int.le_floor.mpr h1
  have h3 : k ≤ roundHalfEven (y * 100) := le_trans h2 (floor_le_roundHalfEven _)
  have h4 : (k : ℚ) ≤ (roundHalfEven (y * 100) : ℚ) := by exact_mod_cast h3
  unfold round2
  linarith

/-- Hexadecimal rendering yields two characters per byte. -/
lemma hexChars_length (bs : List Nat) : (hexChars bs).length = 2 * bs.length := by
  induction bs with
  | nil => rfl
  | cons b rest ih =>
      simp only [hexChars, List.map_cons, List.flatten_cons, List.length_append,
        List.length_cons, byteHexChars] at ih ⊢
      simp only [List.length_cons, List.length_nil] at ih ⊢
      omega

/-- SHA-256 digests are 32 bytes long. -/
lemma sha256_length (msg : List Nat) : (sha256 msg).length = 32 := by
  simp [sha256, regsBytes, wordBytes]

/-- Sample raw record of the specification scenario: supplier product X1,
name Quinoa, base price 20.00. -/
def sampleRawQuinoa : RawProduct :=
  { supplier_product_id := "X1", name := "Quinoa", brand := none,
    category := none, weight := none, unit := none, price := some 20,
    stock_available := none, stock_quantity := none, source_url := none,
    extraction_hash := none }

/-! ## Claims -/

/-- C1, counterexample to the claim as stated: with base price 0.014,
margin 0 and shipping 0 (all within the quantified range base ≥ 0,
margin ≥ 0, shipping ≥ 0), the final price round(0.014, 2) = 0.01 is
strictly below the base price, so final ≥ base fails. -/
theorem C1_counterexample :
    calculate_final_price (14 / 1000) 0 0 < 14 / 1000 ∧
    (0 : ℚ) ≤ 14 / 1000 ∧ (0 : ℚ) ≤ (0 : ℚ) := by
  refine ⟨?_, by norm_num, le_refl 0⟩
  norm_num [calculate_final_price, round2, roundHalfEven]

/-- C1 (amended): for every base price at least 0, the normalized final
price equals round(base * (1 + margin) + shipping, 2) with margin and
shipping taken from the injected process configuration, whose defaults
are 0.30 and 15.00; and final ≥ base holds whenever the base price is
additionally a whole number of cents (in particular for every
two-decimal currency amount). -/
theorem C1_price_law (rules : BusinessRules) (s : String) (now : Int)
    (raw : RawProduct) (base margin shipping : ℚ)
    (hbase : raw.price = some base)
    (hm : rules.default_margin = margin) (hsh : rules.default_shipping = shipping)
    (hb : 0 ≤ base) (hm0 : 0 ≤ margin) (hs0 : 0 ≤ shipping) :
    (normalize_product rules s now raw).price.final
        = round2 (base * (1 + margin) + shipping) ∧
    ((∃ k : ℤ, base = (k : ℚ) / 100) →
      base ≤ (normalize_product rules s now raw).price.final) ∧
    BUSINESS_RULES.default_margin = 30 / 100 ∧
    BUSINESS_RULES.default_shipping = 15 := by
  have hfinal : (normalize_product rules s now raw).price.final
      = round2 (base * (1 + margin) + shipping) := by
    simp [normalize_product, hbase, hm, hsh, calculate_final_price]
  refine ⟨hfinal, ?_, rfl, rfl⟩
  rintro ⟨k, hk⟩
  rw [hfinal, hk]
  apply round2_ge_of_cents
  rw [← hk]
  nlinarith

/-- C1 witness: the scenario record (base 20.00) with the configured
defaults has final price at least its base price. -/
theorem C1_witness :
    (20 : ℚ) ≤ (normalize_product BUSINESS_RULES "gramore" 0 sampleRawQuinoa).price.final :=
  (C1_price_law BUSINESS_RULES "gramore" 0 sampleRawQuinoa 20 (30 / 100) 15
    rfl rfl rfl (by norm_num) (by norm_num) (by norm_num)).2.1
    ⟨2000, by norm_num⟩

/-- C2: the canonical product id is the SHA-256 hex digest of the string
supplier_id:supplier_product_id truncated to 16 characters; it is 16
characters long, depends only on that pair (so normalizing the same pair
twice, under any configuration and at any time, yields the identical
id), and on the concrete pair (gramore, GRM001) equals the
independently computed digest prefix cd55d333dc546e5a. -/
theorem C2_product_id (rules1 rules2 : BusinessRules) (s : String) (n1 n2 : Int)
    (raw1 raw2 : RawProduct)
    (hsp : raw1.supplier_product_id = raw2.supplier_product_id) :
    (normalize_product rules1 s n1 raw1).id
        = String.mk ((hexChars (sha256 (strBytes
            (s ++ ":" ++ raw1.supplier_product_id)))).take 16) ∧
    (normalize_product rules1 s n1 raw1).id = (normalize_product rules2 s n2 raw2).id ∧
    ((normalize_product rules1 s n1 raw1).id).length = 16 ∧
    generate_product_id "gramore" "GRM001" = "cd55d333dc546e5a" := by
  refine ⟨rfl, ?_, ?_, by rfl⟩
  · show generate_product_id s raw1.supplier_product_id
        = generate_product_id s raw2.supplier_product_id
    rw [hsp]
  · show (String.mk ((hexChars (sha256 (strBytes
        (s ++ ":" ++ raw1.supplier_product_id)))).take 16)).length = 16
    rw [String.length_mk, List.length_take, hexChars_length, sha256_length]
    norm_num

/-- C2 witness: normalizing the scenario record at two different times
yields the identical canonical id. -/
theorem C2_witness :
    (normalize_product BUSINESS_RULES "gramore" 0 sampleRawQuinoa).id
        = (normalize_product BUSINESS_RULES "gramore" 1 sampleRawQuinoa).id :=
  (C2_product_id BUSINESS_RULES BUSINESS_RULES "gramore" 0 1
    sampleRawQuinoa sampleRawQuinoa rfl).2.1

/-- Products of this supplier are all dropped by the replace filter. -/
lemma filter_batch_nil (s : String) (batch : List Product)
    (hb : ∀ p ∈ batch, p.supplier = s) :
    batch.filter (fun p => p.supplier != s) = [] := by
  rw [List.filter_eq_nil_iff]
  intro p hp
  simp [hb p hp]

/-- The replace filter is idempotent over an already filtered list with
the batch appended. -/
lemma filter_replace_idem (s : String) (batch : List Product)
    (hb : ∀ p ∈ batch, p.supplier = s) (l : List Product) :
    (l.filter (fun p => p.supplier != s) ++ batch).filter (fun p => p.supplier != s)
      = l.filter (fun p => p.supplier != s) := by
  rw [List.filter_append, List.filter_filter, filter_batch_nil s batch hb,
    List.append_nil]
  congr 1
  funext p
  exact Bool.and_self _

/-- C3: integrating the same all-of-this-supplier normalized batch twice
in a row leaves the product list, the total count and the returned
integrated count of the second run identical to the first run: the
second run first removes exactly the products the first run appended and
then appends them again. -/
theorem C3_idempotent_integration (n1 n2 : Int) (s : String)
    (batch : List Product) (c : Catalog)
    (hb : ∀ p ∈ batch, p.supplier = s) :
    (integrate_supplier n2 s batch (integrate_supplier n1 s batch c).1).1.products
        = (integrate_supplier n1 s batch c).1.products ∧
    (integrate_supplier n2 s batch (integrate_supplier n1 s batch c).1).1.metadata.total_products
        = (integrate_supplier n1 s batch c).1.metadata.total_products ∧
    (integrate_supplier n2 s batch (integrate_supplier n1 s batch c).1).2
        = (integrate_supplier n1 s batch c).2 := by
  have key := filter_replace_idem s batch hb c.products
  refine ⟨?_, ?_, rfl⟩
  · show ((c.products.filter (fun p => p.supplier != s) ++ batch).filter
        (fun p => p.supplier != s)) ++ batch
      = c.products.filter (fun p => p.supplier != s) ++ batch
    rw [key]
  · show (((c.products.filter (fun p => p.supplier != s) ++ batch).filter
        (fun p => p.supplier != s)) ++ batch).length
      = (c.products.filter (fun p => p.supplier != s) ++ batch).length
    rw [key]

/-- Sample canonical product of the supplier gramore, for witnesses. -/
def sampleProductG : Product :=
  { id := "cd55d333dc546e5a", supplier := "gramore", supplier_product_id := "GRM001",
    name := "Acucar Mascavo Organico", brand := "Gramore", category := "Acucares",
    weight := 500, unit := "g",
    price := { base := 1290 / 100, margin := 30, shipping := 15, final := 3177 / 100 },
    stock := { available := true, quantity := 1 },
    metadata := { extraction_date := 0, source_url := "", hash := "" },
    created_at := 0, updated_at := 0 }

/-- C3 witness: integrating the one-product gramore batch twice into a
fresh catalog leaves the first run's product list unchanged. -/
theorem C3_witness :
    (integrate_supplier 2 "gramore" [sampleProductG]
        (integrate_supplier 1 "gramore" [sampleProductG] (initial_catalog 0)).1).1.products
      = (integrate_supplier 1 "gramore" [sampleProductG] (initial_catalog 0)).1.products :=
  (C3_idempotent_integration 1 2 "gramore" [sampleProductG] (initial_catalog 0)
    (by intro p hp; simp only [List.mem_singleton] at hp; rw [hp]; rfl)).1

/-- Normalized batch of one supplier as the data model describes it:
every product carries that supplier id, and supplier_product_ids are
pairwise distinct (raw supplier records are keyed by
supplier_product_id). -/
def WellFormedBatch (s : String) (batch : List Product) : Prop :=
  (∀ p ∈ batch, p.supplier = s) ∧
  batch.Pairwise (fun p q => p.supplier_product_id ≠ q.supplier_product_id)

/-- Catalog states reachable from a fresh catalog by integrate runs of
normalized supplier batches. -/
inductive Reachable : Catalog → Prop where
  | init : ∀ t, Reachable (initial_catalog t)
  | step : ∀ now s batch c, Reachable c → WellFormedBatch s batch →
      Reachable (integrate_supplier now s batch c).1

/-- At most one live record per (supplier, supplier_product_id) pair. -/
def UniquePerPair (l : List Product) : Prop :=
  l.Pairwise (fun p q =>
    p.supplier ≠ q.supplier ∨ p.supplier_product_id ≠ q.supplier_product_id)

/-- C4: every catalog state reachable by integrate runs has at most one
live record per (supplier, supplier_product_id) pair, and integrate
always first removes every record of the given supplier and then appends
the new batch, never merging by id. -/
theorem C4_unique_per_pair (c : Catalog) (h : Reachable c) :
    UniquePerPair c.products ∧
    ∀ now s batch, (integrate_supplier now s batch c).1.products
        = c.products.filter (fun p => p.supplier != s) ++ batch := by
  refine ⟨?_, fun now s batch => rfl⟩
  induction h with
  | init t => exact List.Pairwise.nil
  | step now s batch c2 _ hwf ih =>
      show UniquePerPair (c2.products.filter (fun p => p.supplier != s) ++ batch)
      rw [UniquePerPair, List.pairwise_append]
      refine ⟨List.Pairwise.sublist (List.filter_sublist _) ih, hwf.2.imp Or.inr, ?_⟩
      intro a ha b hb
      left
      have has : a.supplier ≠ s := by
        have := (List.mem_filter.mp ha).2
        simpa using this
      rw [hwf.1 b hb]
      exact has

/-- C4 witness: the catalog reached by one integrate run of the
one-product gramore batch satisfies the uniqueness invariant. -/
theorem C4_witness :
    UniquePerPair (integrate_supplier 1 "gramore" [sampleProductG]
        (initial_catalog 0)).1.products :=
  (C4_unique_per_pair _
    (Reachable.step 1 "gramore" [sampleProductG] (initial_catalog 0)
      (Reachable.init 0)
      ⟨by intro p hp; simp only [List.mem_singleton] at hp; rw [hp]; rfl,
       List.pairwise_singleton _ _⟩)).1

/-- Demonstration run of the full pipeline on the scenario record. -/
def pipelineDemo : List LogEntry × Product :=
  pipeline_ledger BUSINESS_RULES "gramore" "https://gramore.example"
    1 2 3 4 0 sampleRawQuinoa "rawdigest" "normdigest"

/-- C5: the code contradicts the claim.  A record that completes every
pipeline stage successfully produces the four ledger entries with the
four operation kinds and successful statuses, yet verify_traceability on
its canonical id reports traceable = false: log_extraction records
product_data.get("id", "unknown") and raw records carry no id key, so
the extraction entry references "unknown" instead of the canonical id,
and the operation kinds among entries referencing the canonical id are
only transformation, validation and catalog_integration. -/
theorem C5_traceability_code_bug :
    (verify_traceability (some pipelineDemo.1) pipelineDemo.2.id "gramore").traceable
        = false ∧
    pipelineDemo.1.map (fun l => l.operation)
        = ["extraction", "transformation", "validation", "catalog_integration"] ∧
    (∀ l ∈ pipelineDemo.1, l.operation = "validation" ∨ l.status = some "success") ∧
    (verify_traceability (some pipelineDemo.1) pipelineDemo.2.id "gramore").operations_found
        = ["transformation", "validation", "catalog_integration"] := by
  refine ⟨by rfl, by rfl, by decide, by rfl⟩

/-- Unfolding equation of audit_supplier on a present ledger. -/
lemma audit_supplier_some (now : Int) (s : String) (logs : List LogEntry) :
    audit_supplier now s (some logs) =
      (if calculate_success_rate logs < 95 / 100 then
        AuditOutcome.report
          { supplier := s, audit_date := now,
            total_operations := logs.length,
            operations_by_type := count_operations logs,
            success_rate := calculate_success_rate logs,
            data_integrity := verify_data_integrity logs,
            compliance_status := "warning",
            issues := ["Taxa de sucesso abaixo de 95%"] }
      else AuditOutcome.report
          { supplier := s, audit_date := now,
            total_operations := logs.length,
            operations_by_type := count_operations logs,
            success_rate := calculate_success_rate logs,
            data_integrity := verify_data_integrity logs,
            compliance_status := "compliant",
            issues := [] }) := rfl

/-- C6: for a non-empty ledger the audit reports success_rate as the
number of entries whose status is exactly "success" (entries without a
status key count as non-success) divided by the total; the status is
compliant exactly when the rate is at least 0.95 and warning with a
non-empty issues list otherwise; a 20-entry ledger with exactly 19
successes is compliant and one with fewer is warning. -/
theorem C6_audit_boundary (now : Int) (s : String) (logs : List LogEntry)
    (hne : logs ≠ []) :
    ∃ rep : AuditReport,
      audit_supplier now s (some logs) = AuditOutcome.report rep ∧
      rep.success_rate
          = (logs.countP (fun l => l.status == some "success") : ℚ) / logs.length ∧
      (rep.compliance_status = "compliant" ↔ (95 : ℚ) / 100 ≤ rep.success_rate) ∧
      (rep.compliance_status ≠ "compliant" →
        rep.compliance_status = "warning" ∧ rep.issues ≠ []) ∧
      (logs.length = 20 → logs.countP (fun l => l.status == some "success") = 19 →
        rep.compliance_status = "compliant") ∧
      (logs.length = 20 → logs.countP (fun l => l.status == some "success") < 19 →
        rep.compliance_status = "warning" ∧ rep.issues ≠ []) := by
  have hiE : logs.isEmpty = false := List.isEmpty_eq_false.mpr hne
  have hrate : calculate_success_rate logs
      = (logs.countP (fun l => l.status == some "success") : ℚ) / logs.length := by
    simp [calculate_success_rate, hiE]
  by_cases hr : calculate_success_rate logs < 95 / 100
  case pos =>
    refine ⟨{ supplier := s, audit_date := now,
              total_operations := logs.length,
              operations_by_type := count_operations logs,
              success_rate := calculate_success_rate logs,
              data_integrity := verify_data_integrity logs,
              compliance_status := "warning",
              issues := ["Taxa de sucesso abaixo de 95%"] },
            ?_, hrate, ?_, ?_, ?_, ?_⟩
    · rw [audit_supplier_some, if_pos hr]
    · exact iff_of_false (show ¬ ("warning" = "compliant") by decide) (not_le.mpr hr)
    · intro _
      exact ⟨rfl, show (["Taxa de sucesso abaixo de 95%"] : List String) ≠ [] by decide⟩
    · intro h20 h19
      exfalso
      rw [hrate, h19, h20] at hr
      norm_num at hr
    · intro _ _
      exact ⟨rfl, show (["Taxa de sucesso abaixo de 95%"] : List String) ≠ [] by decide⟩
  case neg =>
    refine ⟨{ supplier := s, audit_date := now,
              total_operations := logs.length,
              operations_by_type := count_operations logs,
              success_rate := calculate_success_rate logs,
              data_integrity := verify_data_integrity logs,
              compliance_status := "compliant",
              issues := [] },
            ?_, hrate, ?_, ?_, ?_, ?_⟩
    · rw [audit_supplier_some, if_neg hr]
    · exact iff_of_true rfl (not_lt.mp hr)
    · intro hc
      exact absurd rfl hc
    · intro _ _
      rfl
    · intro h20 hlt
      exfalso
      have hle : logs.countP (fun l => l.status == some "success") ≤ 18 := by omega
      have hc18 : ((logs.countP (fun l => l.status == some "success") : ℕ) : ℚ) ≤ 18 := by
        exact_mod_cast hle
      have h1 : calculate_success_rate logs ≤ 18 / 20 := by
        rw [hrate, h20]
        have h2 : ((20 : ℕ) : ℚ) = 20 := by norm_num
        rw [h2]
        linarith
      have h3 := not_lt.mp hr
      linarith

/-- Sample successful ledger entry, for witnesses. -/
def sampleSuccessEntry : LogEntry :=
  log_catalog_integration_entry 0 "gramore" "p1" "p1" "success"

/-- C6 witness: a one-entry all-success ledger audits as compliant. -/
theorem C6_witness :
    ∃ rep : AuditReport,
      audit_supplier 0 "gramore" (some [sampleSuccessEntry]) = AuditOutcome.report rep ∧
      rep.compliance_status = "compliant" := by
  obtain ⟨rep, h1, h2, h3, _, _, _⟩ :=
    C6_audit_boundary 0 "gramore" [sampleSuccessEntry] (by simp)
  refine ⟨rep, h1, h3.mpr ?_⟩
  rw [h2]
  norm_num [sampleSuccessEntry, log_catalog_integration_entry, List.countP_cons]

/-- Membership in the internal candidate list of the retention check. -/
lemma mem_retention_candidates (d now : Int) (ledgers : List (String × List LogEntry))
    (file : String) (ts : Int) :
    (file, ts) ∈ retention_candidates d now ledgers ↔
      ∃ logs, (file, logs) ∈ ledgers ∧ ∃ l ∈ logs, l.timestamp = ts ∧ ts < now - d := by
  simp only [retention_candidates, List.mem_flatMap, List.mem_map, List.mem_filter,
    decide_eq_true_eq, Prod.mk.injEq]
  constructor
  · rintro ⟨⟨f, logs⟩, hfl, l, ⟨hl, hlt⟩, hf, hts⟩
    subst hf
    subst hts
    exact ⟨logs, hfl, l, hl, rfl, hlt⟩
  · rintro ⟨logs, hmem, l, hl, hts, hlt⟩
    subst hts
    exact ⟨(file, logs), hmem, l, ⟨hl, hlt⟩, rfl, rfl⟩

/-- C7 (amended): the retention check scans all supplier ledgers,
computes exactly the entries strictly older than cutoff = now minus
retention_days as internal archival candidates, excludes an entry whose
timestamp equals the cutoff, deletes nothing, and returns the count of
the candidates and the cutoff date (the candidate list itself is not
part of the returned report). -/
theorem C7_retention (d now : Int) (ledgers : List (String × List LogEntry))
    (file : String) (ts : Int) :
    (check_retention_policy d now ledgers).logs_to_archive
        = (retention_candidates d now ledgers).length ∧
    (check_retention_policy d now ledgers).cutoff_date = now - d ∧
    ((file, ts) ∈ retention_candidates d now ledgers ↔
      ∃ logs, (file, logs) ∈ ledgers ∧ ∃ l ∈ logs, l.timestamp = ts ∧ ts < now - d) ∧
    (ts = now - d → (file, ts) ∉ retention_candidates d now ledgers) := by
  refine ⟨rfl, rfl, mem_retention_candidates d now ledgers file ts, ?_⟩
  intro heq hmem
  obtain ⟨logs, _, l, _, hts, hlt⟩ :=
    (mem_retention_candidates d now ledgers file ts).mp hmem
  omega

/-- Stale ledger entry with timestamp -1000, for the counterexample. -/
def oldEntryA : LogEntry := log_validation_entry (-1000) "gramore" "p1" true []

/-- Stale ledger entry with timestamp -2000, for the counterexample. -/
def oldEntryB : LogEntry := log_validation_entry (-2000) "gramore" "p1" true []

/-- C7, counterexample to the claim as stated: the check does not return
the list of archival candidates, only their count — two ledgers whose
candidate entries differ yield the very same retention report. -/
theorem C7_counterexample :
    check_retention_policy 365 1000 [("gramore_etl_log.jsonl", [oldEntryA])]
        = check_retention_policy 365 1000 [("gramore_etl_log.jsonl", [oldEntryB])] ∧
    retention_candidates 365 1000 [("gramore_etl_log.jsonl", [oldEntryA])]
        ≠ retention_candidates 365 1000 [("gramore_etl_log.jsonl", [oldEntryB])] := by
  exact ⟨rfl, by decide⟩

/-- Unfolding equation of verify_traceability on a present ledger with
matching entries. -/
lemma verify_traceability_found (logs : List LogEntry) (pid sid : String)
    (h : (logs.filter (fun l => l.product_id == pid)).isEmpty = false) :
    verify_traceability (some logs) pid sid =
      { traceable := required_operations.all (fun op =>
          (((logs.filter (fun l => l.product_id == pid)).map
            (fun l => l.operation)).dedup).contains op),
        reason := none,
        operations_found :=
          ((logs.filter (fun l => l.product_id == pid)).map (fun l => l.operation)).dedup,
        timeline := (logs.filter (fun l => l.product_id == pid)).mergeSort
          (fun a b => decide (a.timestamp ≤ b.timestamp)) } := by
  simp only [verify_traceability]
  rw [if_neg (by simp [h])]

/-- C8: verify_traceability is total and returns a result code in every
case: reason "Logs não encontrados" when the ledger is absent, reason
"Produto não encontrado nos logs" when no entry references the product
id, and otherwise traceable exactly when every one of the four required
operation kinds occurs among the matching entries, with the matching
entries as a timeline sorted ascending by timestamp. -/
theorem C8_traceability_result (logs : List LogEntry) (pid sid : String) :
    verify_traceability none pid sid =
      { traceable := false, reason := some "Logs não encontrados",
        operations_found := [], timeline := [] } ∧
    (logs.filter (fun l => l.product_id == pid) = [] →
      verify_traceability (some logs) pid sid =
        { traceable := false, reason := some "Produto não encontrado nos logs",
          operations_found := [], timeline := [] }) ∧
    (logs.filter (fun l => l.product_id == pid) ≠ [] →
      ((verify_traceability (some logs) pid sid).traceable = true ↔
        ∀ op ∈ required_operations,
          op ∈ (logs.filter (fun l => l.product_id == pid)).map (fun l => l.operation)) ∧
      (verify_traceability (some logs) pid sid).reason = none ∧
      ((verify_traceability (some logs) pid sid).timeline).Perm
        (logs.filter (fun l => l.product_id == pid)) ∧
      ((verify_traceability (some logs) pid sid).timeline).Pairwise
        (fun a b => a.timestamp ≤ b.timestamp)) := by
  refine ⟨rfl, ?_, ?_⟩
  · intro h
    simp only [verify_traceability]
    rw [if_pos (by simp [h])]
  · intro h
    have hE : (logs.filter (fun l => l.product_id == pid)).isEmpty = false :=
      List.isEmpty_eq_false.mpr h
    rw [verify_traceability_found logs pid sid hE]
    refine ⟨?_, rfl, List.mergeSort_perm _ _, ?_⟩
    · simp only [List.all_eq_true, List.contains, List.elem_iff, List.mem_dedup]
    · have hs := @List.sorted_mergeSort LogEntry
        (fun a b => decide (a.timestamp ≤ b.timestamp))
        (fun a b c hab hbc => by
          simp only [decide_eq_true_eq] at hab hbc ⊢
          omega)
        (fun a b => by
          simp only [Bool.or_eq_true, decide_eq_true_eq]
          exact Int.le_total _ _)
        (logs.filter (fun l => l.product_id == pid))
      exact hs.imp (fun hab => by simpa using hab)

/-- C8 witness: on an absent ledger the result is a code, not an
exception: not traceable, reason "Logs não encontrados". -/
theorem C8_witness :
    verify_traceability none "p1" "gramore" =
      { traceable := false, reason := some "Logs não encontrados",
        operations_found := [], timeline := [] } :=
  (C8_traceability_result [] "p1" "gramore").1

/-- C9: statistics of an empty catalog is the all-zero structure (zero
total, empty suppliers map, empty categories, zero price range), and the
average-price division is only reachable with a non-empty price list. -/
theorem C9_empty_statistics (c : Catalog) (h : c.products = []) :
    get_statistics c =
      { total_products := 0, suppliers := [], categories := [],
        price_min := 0, price_max := 0, price_avg := 0 } ∧
    ∀ c2 : Catalog, c2.products ≠ [] →
      0 < (c2.products.map (fun p => p.price.final)).length := by
  constructor
  · simp [get_statistics, h]
  · intro c2 h2
    cases hp : c2.products with
    | nil => exact absurd hp h2
    | cons p ps => simp [hp]

/-- C9 witness: a fresh catalog reports the all-zero statistics. -/
theorem C9_witness :
    get_statistics (initial_catalog 0) =
      { total_products := 0, suppliers := [], categories := [],
        price_min := 0, price_max := 0, price_avg := 0 } :=
  (C9_empty_statistics (initial_catalog 0) rfl).1

/-- Metadata invariant the catalog maintains: the suppliers map holds
exactly the three fixed keys with the live per-supplier counts, and
total_products is the product count. -/
def MetadataInv (c : Catalog) : Prop :=
  c.metadata.suppliers =
    [("gramore", c.products.countP (fun p => p.supplier == "gramore")),
     ("elmar", c.products.countP (fun p => p.supplier == "elmar")),
     ("rmoura", c.products.countP (fun p => p.supplier == "rmoura"))] ∧
  c.metadata.total_products = c.products.length

/-- Updating the metadata over a map with the three fixed keys recounts
each key from the product list. -/
lemma update_metadata_suppliers (now : Int) (c : Catalog) (a b k : Nat)
    (h : c.metadata.suppliers = [("gramore", a), ("elmar", b), ("rmoura", k)]) :
    (update_metadata now c).metadata.suppliers =
      [("gramore", c.products.countP (fun p => p.supplier == "gramore")),
       ("elmar", c.products.countP (fun p => p.supplier == "elmar")),
       ("rmoura", c.products.countP (fun p => p.supplier == "rmoura"))] := by
  simp only [update_metadata]
  rw [h]
  rfl

/-- Every reachable catalog satisfies the metadata invariant. -/
lemma reachable_metadataInv (c : Catalog) (h : Reachable c) : MetadataInv c := by
  induction h with
  | init t => exact ⟨rfl, rfl⟩
  | step now s batch c2 _ _ ih =>
      exact ⟨update_metadata_suppliers now _ _ _ _ ih.1, rfl⟩

/-- C10: in every catalog state the catalog's own operations produce, the
suppliers metadata map holds exactly the three fixed keys gramore, elmar
and rmoura; total_products equals the live product count; each fixed key
counts exactly the products of that supplier; a supplier key outside the
three is absent from the map even when its products are counted in
total_products; and non-empty statistics expose that total and that
map. -/
theorem C10_supplier_metadata (c : Catalog) (h : Reachable c) :
    c.metadata.suppliers.map Prod.fst = ["gramore", "elmar", "rmoura"] ∧
    c.metadata.total_products = c.products.length ∧
    (∀ s, s ∈ (["gramore", "elmar", "rmoura"] : List String) →
      c.metadata.suppliers.lookup s
        = some (c.products.countP (fun p => p.supplier == s))) ∧
    (∀ s, s ∉ (["gramore", "elmar", "rmoura"] : List String) →
      c.metadata.suppliers.lookup s = none) ∧
    (c.products ≠ [] →
      (get_statistics c).total_products = c.products.length ∧
      (get_statistics c).suppliers = c.metadata.suppliers) := by
  obtain ⟨h1, h2⟩ := reachable_metadataInv c h
  refine ⟨by rw [h1]; rfl, h2, ?_, ?_, ?_⟩
  · intro s hs
    simp only [List.mem_cons, List.not_mem_nil, or_false] at hs
    rcases hs with rfl | rfl | rfl <;> rw [h1] <;> rfl
  · intro s hs
    simp only [List.mem_cons, List.not_mem_nil, or_false, not_or] at hs
    obtain ⟨hg, he, hr⟩ := hs
    rw [h1]
    have hg2 : (s == "gramore") = false := beq_eq_false_iff_ne.mpr hg
    have he2 : (s == "elmar") = false := beq_eq_false_iff_ne.mpr he
    have hr2 : (s == "rmoura") = false := beq_eq_false_iff_ne.mpr hr
    simp [List.lookup, hg2, he2, hr2]
  · intro hne
    cases hp : c.products with
    | nil => exact absurd hp hne
    | cons p ps =>
        constructor
        · simp [get_statistics, hp]
        · simp [get_statistics, hp]

/-- Sample canonical product of a supplier outside the three fixed keys. -/
def sampleProductA : Product :=
  { id := "a1a1a1a1a1a1a1a1", supplier := "acme", supplier_product_id := "A1",
    name := "Granola", brand := "", category := "Cereais",
    weight := 1, unit := "kg",
    price := { base := 10, margin := 30, shipping := 15, final := 28 },
    stock := { available := true, quantity := 1 },
    metadata := { extraction_date := 0, source_url := "", hash := "" },
    created_at := 0, updated_at := 0 }

/-- C10 witness: after integrating one product of the unknown supplier
acme into a fresh catalog, the suppliers map carries no acme key. -/
theorem C10_witness :
    ((integrate_supplier 1 "acme" [sampleProductA]
        (initial_catalog 0)).1).metadata.suppliers.lookup "acme" = none := by
  have h := C10_supplier_metadata _
    (Reachable.step 1 "acme" [sampleProductA] (initial_catalog 0)
      (Reachable.init 0)
      ⟨by intro p hp; simp only [List.mem_singleton] at hp; rw [hp]; rfl,
       List.pairwise_singleton _ _⟩)
  exact h.2.2.2.1 "acme" (by decide)

end Adaas
